import Mathlib

/-!
Verification of the load-balancer lifecycle simulator in
`mimic/canned_responses/loadbalancer.py`.

The Python store (`store.lbs`, `store.meta`) is a pair of dictionaries keyed
by load-balancer id; dictionaries are modelled as association lists over
`String` keys.  Simulated time is modelled as `Int` seconds: the source stores
`updated["time"]` as a textual timestamp via `seconds_to_timestamp` and the
status-clock helper parses it back, and per the spec (section 6) the textual
format is an opaque bijective encoding of the simulated-time value, so the
round trip is the identity and both sides are embedded as plain integers.

Python dictionary access that can raise `KeyError` is embedded as
`Except Unit`: `.error ()` marks the raised exception.
-/

/-- First value bound to key `k` in the association list, like Python
`d[k]` guarded by membership: `none` when the key is absent. -/
def lookupA {α : Type} : List (String × α) → String → Option α
  | [], _ => none
  | (k', v) :: rest, k => if k' = k then some v else lookupA rest k

/-- Bind key `k` to `v`, replacing the first existing binding in place
(Python `d[k] = v` keeps the key's position) or appending a fresh one. -/
def insertA {α : Type} : List (String × α) → String → α → List (String × α)
  | [], k, v => [(k, v)]
  | (k', v') :: rest, k, v =>
    if k' = k then (k, v) :: rest else (k', v') :: insertA rest k v

/-- Remove the first binding of key `k`, like Python `del d[k]`. -/
def eraseA {α : Type} : List (String × α) → String → List (String × α)
  | [], _ => []
  | (k', v') :: rest, k => if k' = k then rest else (k', v') :: eraseA rest k

/-- Child node record, the fields produced by `_format_nodes_on_lb`. -/
structure Node where
  address : String
  condition : String
  port : Int
  weight : Option Int
  type : Option String
  nodeId : Int
  nodeStatus : String
  deriving DecidableEq, Repr

/-- The parts of a `store.lbs[lb_id]` record that the lifecycle engine reads
or writes: `status`, `updated["time"]` and the optional `nodes` collection.
The remaining payload fields (name, protocol, port, ...) are immutable and
irrelevant to the state machine (spec section 3), so they are not modelled. -/
structure LB where
  status : String
  updatedTime : Int
  nodes : Option (List Node)
  deriving DecidableEq, Repr

/-- A `store.meta[lb_id]` record.  `lb_building` is `none` when the stored
value is falsy (the creation path, outside this file, always stores the key);
`lb_pending_update` and `lb_pending_delete` are `none` when the key is absent
(`"..." in store.meta[lb_id]` is a presence test) and carry the stored dwell
otherwise; `lb_error_state` is a pure presence flag whose value is never
read. -/
structure Meta where
  lb_building : Option Int
  lb_pending_update : Option Int
  lb_pending_delete : Option Int
  lb_error_state : Bool
  deriving DecidableEq, Repr

/-- The mutable store: `store.lbs` and `store.meta`, both keyed by lb id. -/
structure Store where
  lbs : List (String × LB)
  meta : List (String × Meta)
  deriving DecidableEq, Repr

/-- Modelled from the spec: `set_resource_status` from `mimic.util.helper`
is not under `src/`.  Section 4.1 gives its contract: compute
`elapsed = current_time - parse(last_updated_time)` and return the
timeout status iff `elapsed >= dwell_seconds`, `none` otherwise
(boundary at exact equality transitions).  The Python parameter
`status` defaults to `"ACTIVE"`; call sites that omit it (the BUILD and
PENDING-UPDATE branches) pass `"ACTIVE"` explicitly here, matching the
spec's section 4.2 table rows BUILD -> ACTIVE and PENDING-UPDATE -> ACTIVE. -/
def set_resource_status (updated_time : Int) (dwell : Int) (status : String)
    (current_timestamp : Int) : Option String :=
  if dwell ≤ current_timestamp - updated_time then some status else none

/-- Python `v or 10` on the stored `lb_building` value: `10` exactly when the
value is falsy (`None`, embedded as `none`, or `0`). -/
def orDefault10 : Option Int → Int
  | none => 10
  | some v => if v = 0 then 10 else v

/-- Body of `_verify_and_update_lb_state` once `store.lbs[lb_id]` has been
read into `lb`: the chain of `elif` branches on the current status.  Each
Python `store.meta[lb_id]` read raises `KeyError` when the id has no metadata
entry, embedded as `.error ()`.  `v or 10` on an integer dwell yields `10`
exactly when the stored value is falsy (`0`). -/
def verifyBody (store : Store) (lb_id : String) (set_state : Bool)
    (current_timestamp : Int) (lb : LB) : Except Unit Store :=
  if lb.status = "BUILD" then
    match lookupA store.meta lb_id with
    | none => .error ()
    | some m =>
      let d : Int := orDefault10 m.lb_building
      let m' := { m with lb_building := some d }
      let st := (set_resource_status lb.updatedTime d "ACTIVE" current_timestamp).getD "BUILD"
      .ok { lbs := insertA store.lbs lb_id { lb with status := st },
            meta := insertA store.meta lb_id m' }
  else if lb.status = "ACTIVE" then
    if set_state then
      match lookupA store.meta lb_id with
      | none => .error ()
      | some m =>
        let st1 := if m.lb_pending_update.isSome then "PENDING-UPDATE" else lb.status
        let st2 := if m.lb_pending_delete.isSome then "PENDING-DELETE" else st1
        let st3 := if m.lb_error_state then "ERROR" else st2
        .ok { store with
              lbs := insertA store.lbs lb_id
                { lb with status := st3, updatedTime := current_timestamp } }
    else .ok store
  else if lb.status = "PENDING-UPDATE" then
    match lookupA store.meta lb_id with
    | none => .error ()
    | some m =>
      match m.lb_pending_update with
      | none => .ok store
      | some d =>
        let st := (set_resource_status lb.updatedTime d "ACTIVE" current_timestamp).getD
          "PENDING-UPDATE"
        .ok { store with lbs := insertA store.lbs lb_id { lb with status := st } }
  else if lb.status = "PENDING-DELETE" then
    match lookupA store.meta lb_id with
    | none => .error ()
    | some m =>
      match m.lb_pending_delete with
      | none => .error ()
      | some v =>
        let d := if v = 0 then 10 else v
        let m' := { m with lb_pending_delete := some d }
        let st := (set_resource_status lb.updatedTime d "DELETED" current_timestamp).getD
          "PENDING-DELETE"
        .ok { lbs := insertA store.lbs lb_id
                { lb with status := st, updatedTime := current_timestamp },
              meta := insertA store.meta lb_id m' }
  else if lb.status = "DELETED" then
    let st := (set_resource_status lb.updatedTime 3600 "DELETING-NOW" current_timestamp).getD
      "DELETED"
    if st = "DELETING-NOW" then
      .ok { store with lbs := eraseA store.lbs lb_id }
    else
      .ok { store with lbs := insertA store.lbs lb_id { lb with status := st } }
  else .ok store

/-- `_verify_and_update_lb_state(store, lb_id, set_state, current_timestamp)`:
the Lifecycle Engine.  Reads `store.lbs[lb_id]` (raising when absent, as the
Python subscript would) and dispatches on the current status. -/
def verify_and_update_lb_state (store : Store) (lb_id : String) (set_state : Bool)
    (current_timestamp : Int) : Except Unit Store :=
  match lookupA store.lbs lb_id with
  | none => .error ()
  | some lb => verifyBody store lb_id set_state current_timestamp lb

/-- A response payload, modelled from the spec (sections 6-7): either a
structured success body or a structured error body carrying a message and a
code.  `empty` is `EMPTY_RESPONSE`, `notFound r` is `not_found_response(r)`,
`invalid msg code` is `invalid_resource(msg, code)` and `nodeList ns` is the
`{"nodes": ns}` success body of `list_nodes`.  The builder functions live in
`mimic.util.helper`, outside `src/`. -/
inductive Resp where
  | empty : Resp
  | notFound (resource : String) : Resp
  | invalid (message : String) (code : Nat) : Resp
  | nodeList (ns : List Node) : Resp
  deriving DecidableEq, Repr

/-- The "immutable" message of `del_load_balancer`'s PENDING-DELETE pre-check. -/
def immutableMsg (lb_id : String) : String :=
  "Must provide valid load balancers: " ++ lb_id ++
    " are immutable and could not be processed."

/-- The "could not be found" message of `del_load_balancer`'s DELETED branch. -/
def couldNotBeFoundMsg (lb_id : String) : String :=
  "Must provide valid load balancers: " ++ lb_id ++ " could not be found."

/-- `del_load_balancer(store, lb_id, current_timestamp)`.  Returns the
`(payload, status_code)` pair together with the mutated store; `.error ()`
embeds an uncaught `KeyError`.  Note the second engine call in the DELETED
branch leaves `set_state` at its Python default `True`, and that after the
first engine call the source re-subscripts `store.lbs[lb_id]`, which raises
when that call purged the record. -/
def del_load_balancer (store : Store) (lb_id : String) (current_timestamp : Int) :
    Except Unit ((Resp × Nat) × Store) :=
  match lookupA store.lbs lb_id with
  | none => .ok ((Resp.notFound "loadbalancer", 404), store)
  | some lb =>
    if lb.status = "PENDING-DELETE" then
      .ok ((Resp.invalid (immutableMsg lb_id) 400, 400), store)
    else
      match verify_and_update_lb_state store lb_id true current_timestamp with
      | .error e => .error e
      | .ok s1 =>
        match lookupA s1.lbs lb_id with
        | none => .error ()
        | some lb1 =>
          if lb1.status = "ACTIVE" ∨ lb1.status = "ERROR" ∨
              lb1.status = "PENDING-UPDATE" then
            .ok ((Resp.empty, 202), { s1 with lbs := eraseA s1.lbs lb_id })
          else if lb1.status = "PENDING-DELETE" then
            .ok ((Resp.empty, 202), s1)
          else if lb1.status = "DELETED" then
            match verify_and_update_lb_state s1 lb_id true current_timestamp with
            | .error e => .error e
            | .ok s2 => .ok ((Resp.invalid (couldNotBeFoundMsg lb_id) 400, 400), s2)
          else
            .ok ((Resp.notFound "loadbalancer", 404), s1)

/-- `list_nodes(store, lb_id, current_timestamp)`.  When the id is present the
engine is advanced with `set_state = False`; the source then re-checks
membership (the engine may have purged the record), returns 410 for a DELETED
record, and otherwise the node collection, an empty list when the `nodes` key
is absent or holds an empty (falsy) list. -/
def list_nodes (store : Store) (lb_id : String) (current_timestamp : Int) :
    Except Unit ((Resp × Nat) × Store) :=
  match lookupA store.lbs lb_id with
  | none => .ok ((Resp.notFound "loadbalancer", 404), store)
  | some _ =>
    match verify_and_update_lb_state store lb_id false current_timestamp with
    | .error e => .error e
    | .ok s1 =>
      match lookupA s1.lbs lb_id with
      | none => .ok ((Resp.notFound "loadbalancer", 404), s1)
      | some lb1 =>
        if lb1.status = "DELETED" then
          .ok ((Resp.invalid "The loadbalancer is marked as deleted." 410, 410), s1)
        else
          .ok ((Resp.nodeList (lb1.nodes.getD []), 200), s1)

/-! ### Association-list lemmas -/

theorem lookupA_eq_none_of_not_mem {α : Type} (l : List (String × α)) (k : String)
    (h : k ∉ l.map Prod.fst) : lookupA l k = none := by
  induction l with
  | nil => rfl
  | cons p rest ih =>
    obtain ⟨k', v⟩ := p
    simp only [List.map_cons, List.mem_cons, not_or] at h
    simp only [lookupA, if_neg (fun he : k' = k => h.1 he.symm)]
    exact ih h.2

theorem lookupA_eraseA_of_nodup {α : Type} (l : List (String × α)) (k : String)
    (h : (l.map Prod.fst).Nodup) : lookupA (eraseA l k) k = none := by
  induction l with
  | nil => rfl
  | cons p rest ih =>
    obtain ⟨k', v⟩ := p
    simp only [List.map_cons, List.nodup_cons] at h
    by_cases hk : k' = k
    · simp only [eraseA, if_pos hk]
      exact lookupA_eq_none_of_not_mem rest k (hk ▸ h.1)
    · simp only [eraseA, if_neg hk, lookupA, if_neg hk]
      exact ih h.2

theorem eraseA_insertA {α : Type} (l : List (String × α)) (k : String) (v : α) :
    eraseA (insertA l k v) k = eraseA l k := by
  induction l with
  | nil => simp [insertA, eraseA]
  | cons p rest ih =>
    by_cases hk : p.1 = k
    · simp [insertA, eraseA, hk]
    · simp [insertA, eraseA, hk, ih]

theorem lookupA_insertA_self {α : Type} (l : List (String × α)) (k : String) (v : α) :
    lookupA (insertA l k v) k = some v := by
  induction l with
  | nil => simp [insertA, lookupA]
  | cons p rest ih =>
    by_cases hk : p.1 = k
    · simp [insertA, lookupA, hk]
    · simp [insertA, lookupA, hk, ih]

/-! ### Engine branch equations -/

theorem verify_eq_body (store : Store) (lb_id : String) (set_state : Bool)
    (cur : Int) (lb : LB) (hlb : lookupA store.lbs lb_id = some lb) :
    verify_and_update_lb_state store lb_id set_state cur =
      verifyBody store lb_id set_state cur lb := by
  simp [verify_and_update_lb_state, hlb]

theorem body_build (store : Store) (lb_id : String) (set_state : Bool) (cur : Int)
    (lb : LB) (m : Meta) (hm : lookupA store.meta lb_id = some m)
    (hst : lb.status = "BUILD") :
    verifyBody store lb_id set_state cur lb =
      .ok { lbs := insertA store.lbs lb_id
              { lb with status :=
                  (if orDefault10 m.lb_building ≤ cur - lb.updatedTime
                   then "ACTIVE" else "BUILD") },
            meta := insertA store.meta lb_id
              { m with lb_building := some (orDefault10 m.lb_building) } } := by
  simp only [verifyBody, hst, hm, set_resource_status]
  by_cases h : orDefault10 m.lb_building ≤ cur - lb.updatedTime <;>
    simp [h]

theorem body_active_true (store : Store) (lb_id : String) (cur : Int)
    (lb : LB) (m : Meta) (hm : lookupA store.meta lb_id = some m)
    (hst : lb.status = "ACTIVE") :
    verifyBody store lb_id true cur lb =
      .ok { store with
            lbs := insertA store.lbs lb_id
              { lb with
                status :=
                  (if m.lb_error_state then "ERROR"
                   else if m.lb_pending_delete.isSome then "PENDING-DELETE"
                   else if m.lb_pending_update.isSome then "PENDING-UPDATE"
                   else "ACTIVE"),
                updatedTime := cur } } := by
  simp only [verifyBody, hst, hm]
  by_cases h1 : m.lb_pending_update.isSome <;>
    by_cases h2 : m.lb_pending_delete.isSome <;>
    by_cases h3 : m.lb_error_state <;>
    simp [h1, h2, h3]

theorem body_active_false (store : Store) (lb_id : String) (cur : Int)
    (lb : LB) (hst : lb.status = "ACTIVE") :
    verifyBody store lb_id false cur lb = .ok store := by
  simp [verifyBody, hst]

theorem body_deleted_elapsed (store : Store) (lb_id : String) (set_state : Bool)
    (cur : Int) (lb : LB) (hst : lb.status = "DELETED")
    (hel : 3600 ≤ cur - lb.updatedTime) :
    verifyBody store lb_id set_state cur lb =
      .ok { store with lbs := eraseA store.lbs lb_id } := by
  simp [verifyBody, hst, set_resource_status, hel]

theorem body_deleted_dwelling (store : Store) (lb_id : String) (set_state : Bool)
    (cur : Int) (lb : LB) (hst : lb.status = "DELETED")
    (hel : cur - lb.updatedTime < 3600) :
    verifyBody store lb_id set_state cur lb =
      .ok { store with lbs := insertA store.lbs lb_id { lb with status := "DELETED" } } := by
  simp [verifyBody, hst, set_resource_status, not_le.mpr hel]

/-! ### Sample concrete inputs -/

/-- A minimal resource record in the given status, last updated at time `t`. -/
def sampleLB (st : String) (t : Int) : LB :=
  { status := st, updatedTime := t, nodes := none }

/-- Metadata with no dwell overrides and no trigger flags. -/
def sampleMeta : Meta :=
  { lb_building := none, lb_pending_update := none,
    lb_pending_delete := none, lb_error_state := false }

/-- A one-resource store: `lb1` in status `st`, last updated at time 0. -/
def sampleStore (st : String) : Store :=
  { lbs := [("lb1", sampleLB st 0)], meta := [("lb1", sampleMeta)] }

/-- Metadata whose only trigger is `lb_pending_delete` (dwell 10). -/
def samplePDMeta : Meta := { sampleMeta with lb_pending_delete := some 10 }

/-- A one-resource store: `lb1` in PENDING-DELETE, pending-delete dwell 10. -/
def samplePDStore : Store :=
  { lbs := [("lb1", sampleLB "PENDING-DELETE" 0)], meta := [("lb1", samplePDMeta)] }

/-- The store left behind by the grace-period purge of `sampleStore "DELETED"`:
the resource record is gone, its metadata entry is still present. -/
def purgedSample : Store := { lbs := [], meta := [("lb1", sampleMeta)] }

/-- The status code of a handler result, `none` when the call raised. -/
def statusCodeOf (r : Except Unit ((Resp × Nat) × Store)) : Option Nat :=
  match r with
  | .ok x => some x.1.2
  | .error _ => none

/-- C1: the claim says `del_load_balancer` never raises and, for a DELETED
resource whose 3600s grace period has elapsed, completes normally with the
400 "could not be found" result.  On the code, the first engine call purges
the record and the subsequent `store.lbs[lb_id]["status"]` subscript raises
`KeyError`: at `lb1` DELETED since time 0, deleted at time 3600, the call
raises instead of returning any `(payload, status)` pair. -/
theorem del_load_balancer_raises_on_elapsed_deleted :
    del_load_balancer (sampleStore "DELETED") "lb1" 3600 = .error () ∧
    statusCodeOf (del_load_balancer (sampleStore "DELETED") "lb1" 3600) = none := by
  constructor <;> rfl

/-- C2 counterexample: advancing `lb1` (DELETED since time 0) at time 3600
purges the resource record but leaves its simulation metadata entry in the
store, so "both the resource record and its metadata entry are removed" and
the invariant "metadata exists only if the record exists" are false on the
code. -/
theorem purge_keeps_metadata_cex :
    verify_and_update_lb_state (sampleStore "DELETED") "lb1" true 3600 =
      .ok purgedSample ∧
    lookupA purgedSample.lbs "lb1" = none ∧
    lookupA purgedSample.meta "lb1" = some sampleMeta := by
  refine ⟨?_, rfl, rfl⟩
  rfl

/-- C2 (amended): for every DELETED resource whose 3600s grace period has
elapsed, `advance` removes the resource record from `store.lbs` but leaves
`store.meta` — including the resource's own metadata entry — completely
unchanged, so the metadata entry survives the purge. -/
theorem purge_removes_record_keeps_metadata (store : Store) (lb_id : String)
    (lb : LB) (set_state : Bool) (cur : Int)
    (hlb : lookupA store.lbs lb_id = some lb) (hst : lb.status = "DELETED")
    (hel : 3600 ≤ cur - lb.updatedTime) :
    verify_and_update_lb_state store lb_id set_state cur =
      .ok { store with lbs := eraseA store.lbs lb_id } ∧
    ∀ s', verify_and_update_lb_state store lb_id set_state cur = .ok s' →
      s'.meta = store.meta := by
  have h := (verify_eq_body store lb_id set_state cur lb hlb).trans
    (body_deleted_elapsed store lb_id set_state cur lb hst hel)
  refine ⟨h, fun s' hs' => ?_⟩
  rw [h] at hs'
  cases hs'
  rfl

/-- Witness for `purge_removes_record_keeps_metadata` at the concrete store
with `lb1` DELETED since time 0, advanced at time 3600. -/
theorem purge_removes_record_keeps_metadata_witness :
    verify_and_update_lb_state (sampleStore "DELETED") "lb1" true 3600 =
      .ok { sampleStore "DELETED" with
            lbs := eraseA (sampleStore "DELETED").lbs "lb1" } :=
  (purge_removes_record_keeps_metadata (sampleStore "DELETED") "lb1"
    (sampleLB "DELETED" 0) true 3600 (by decide) (by decide) (by decide)).1

/-- C3 counterexample: deleting `lb1` while its current status is
PENDING-DELETE returns the 400 immutable-conflict result, not 202 as the
claim states (the store is left unchanged, as the claim also states). -/
theorem del_pending_delete_not_202_cex :
    del_load_balancer samplePDStore "lb1" 5 =
      .ok ((Resp.invalid (immutableMsg "lb1") 400, 400), samplePDStore) ∧
    statusCodeOf (del_load_balancer samplePDStore "lb1" 5) ≠ some 202 := by
  constructor
  · rfl
  · decide

/-- C3 (amended): for every resource whose current status is PENDING-DELETE,
`del_load_balancer` hits the pre-check and returns the immutable-conflict
message with status code 400 — not 202 — leaving the store (hence the
resource's record and status) completely unchanged. -/
theorem del_pending_delete_returns_400 (store : Store) (lb_id : String)
    (lb : LB) (cur : Int)
    (hlb : lookupA store.lbs lb_id = some lb)
    (hst : lb.status = "PENDING-DELETE") :
    del_load_balancer store lb_id cur =
      .ok ((Resp.invalid (immutableMsg lb_id) 400, 400), store) := by
  simp [del_load_balancer, hlb, hst]

/-- Witness for `del_pending_delete_returns_400` at the concrete
PENDING-DELETE store. -/
theorem del_pending_delete_returns_400_witness :
    del_load_balancer samplePDStore "lb1" 5 =
      .ok ((Resp.invalid (immutableMsg "lb1") 400, 400), samplePDStore) :=
  del_pending_delete_returns_400 samplePDStore "lb1"
    (sampleLB "PENDING-DELETE" 0) 5 (by decide) (by decide)

/-- C4 counterexample: after the purge fired (advance of `lb1`, DELETED since
time 0, at time 3600), a `del_load_balancer` call on the purged id returns the
404 not-found response, not a 400 "could not be found" response as the claim
states. -/
theorem del_after_purge_not_400_cex :
    verify_and_update_lb_state (sampleStore "DELETED") "lb1" false 3600 =
      .ok purgedSample ∧
    del_load_balancer purgedSample "lb1" 3601 =
      .ok ((Resp.notFound "loadbalancer", 404), purgedSample) ∧
    statusCodeOf (del_load_balancer purgedSample "lb1" 3601) ≠ some 400 := by
  refine ⟨?_, ?_, ?_⟩
  · rfl
  · rfl
  · decide

/-- C4 (amended): a resource DELETED for at least 3600 simulated seconds has
its record (though not its metadata, see C2) removed from the store by the
next advance, and a `del_load_balancer` call on the purged id afterwards
returns status code 404 (not found), not 400. -/
theorem del_after_purge_returns_404 (store : Store) (lb_id : String) (lb : LB)
    (set_state : Bool) (cur cur2 : Int)
    (hlb : lookupA store.lbs lb_id = some lb) (hst : lb.status = "DELETED")
    (hel : 3600 ≤ cur - lb.updatedTime)
    (hnd : (store.lbs.map Prod.fst).Nodup) :
    verify_and_update_lb_state store lb_id set_state cur =
      .ok { store with lbs := eraseA store.lbs lb_id } ∧
    del_load_balancer { store with lbs := eraseA store.lbs lb_id } lb_id cur2 =
      .ok ((Resp.notFound "loadbalancer", 404),
           { store with lbs := eraseA store.lbs lb_id }) := by
  have h := (verify_eq_body store lb_id set_state cur lb hlb).trans
    (body_deleted_elapsed store lb_id set_state cur lb hst hel)
  have h3 : lookupA (eraseA store.lbs lb_id) lb_id = none :=
    lookupA_eraseA_of_nodup store.lbs lb_id hnd
  exact ⟨h, by simp [del_load_balancer, h3]⟩

/-- Witness for `del_after_purge_returns_404` at the concrete store with
`lb1` DELETED since time 0, purged at time 3600, deleted again at 3601. -/
theorem del_after_purge_returns_404_witness :
    del_load_balancer { sampleStore "DELETED" with
        lbs := eraseA (sampleStore "DELETED").lbs "lb1" } "lb1" 3601 =
      .ok ((Resp.notFound "loadbalancer", 404),
           { sampleStore "DELETED" with
             lbs := eraseA (sampleStore "DELETED").lbs "lb1" }) :=
  (del_after_purge_returns_404 (sampleStore "DELETED") "lb1"
    (sampleLB "DELETED" 0) true 3600 3601
    (by decide) (by decide) (by decide) (by decide)).2

/-- A store with `lb1` ACTIVE whose metadata has the `lb_pending_delete`
trigger flag set (dwell 10). -/
def samplePDFlagStore : Store :=
  { lbs := [("lb1", sampleLB "ACTIVE" 0)], meta := [("lb1", samplePDMeta)] }

/-- The store produced by deleting `lb1` of `samplePDFlagStore` at time 5:
the record transitioned to PENDING-DELETE and was kept. -/
def afterDelFlagStore : Store :=
  { lbs := [("lb1", { status := "PENDING-DELETE", updatedTime := 5, nodes := none })],
    meta := [("lb1", samplePDMeta)] }

/-- C5 counterexample: `lb1` is ACTIVE but its metadata carries the
`lb_pending_delete` flag.  `del_load_balancer` at time 5 returns 202 yet the
record is still in the store (now PENDING-DELETE), so "removes the resource
from the store immediately" is false; a second delete then returns 400, not
404. -/
theorem del_active_pending_delete_flag_cex :
    del_load_balancer samplePDFlagStore "lb1" 5 =
      .ok ((Resp.empty, 202), afterDelFlagStore) ∧
    lookupA afterDelFlagStore.lbs "lb1" =
      some { status := "PENDING-DELETE", updatedTime := 5, nodes := none } ∧
    statusCodeOf (del_load_balancer afterDelFlagStore "lb1" 6) = some 400 := by
  refine ⟨?_, rfl, ?_⟩ <;> rfl

/-- C5 (amended): for every ACTIVE resource whose metadata does not set the
`lb_pending_delete` flag without also setting `lb_error_state` (the one
combination that diverts the delete into PENDING-DELETE),
`del_load_balancer` returns 202 and removes the record within the same call,
and a second delete on the id afterwards returns 404. -/
theorem del_active_removes_when_no_delete_flag (store : Store) (lb_id : String)
    (lb : LB) (m : Meta) (cur cur2 : Int)
    (hlb : lookupA store.lbs lb_id = some lb)
    (hm : lookupA store.meta lb_id = some m)
    (hst : lb.status = "ACTIVE")
    (hflag : m.lb_pending_delete = none ∨ m.lb_error_state = true)
    (hnd : (store.lbs.map Prod.fst).Nodup) :
    del_load_balancer store lb_id cur =
      .ok ((Resp.empty, 202), { store with lbs := eraseA store.lbs lb_id }) ∧
    lookupA (eraseA store.lbs lb_id) lb_id = none ∧
    del_load_balancer { store with lbs := eraseA store.lbs lb_id } lb_id cur2 =
      .ok ((Resp.notFound "loadbalancer", 404),
           { store with lbs := eraseA store.lbs lb_id }) := by
  have hv := (verify_eq_body store lb_id true cur lb hlb).trans
    (body_active_true store lb_id cur lb m hm hst)
  have hn : lookupA (eraseA store.lbs lb_id) lb_id = none :=
    lookupA_eraseA_of_nodup store.lbs lb_id hnd
  refine ⟨?_, hn, by simp [del_load_balancer, hn]⟩
  rcases hflag with hpd | herr
  · by_cases hpu : m.lb_pending_update.isSome <;>
      by_cases herr2 : m.lb_error_state <;>
      simp [del_load_balancer, hlb, hst, hv, lookupA_insertA_self,
            eraseA_insertA, hpd, hpu, herr2]
  · by_cases hpu : m.lb_pending_update.isSome <;>
      by_cases hpd2 : m.lb_pending_delete.isSome <;>
      simp [del_load_balancer, hlb, hst, hv, lookupA_insertA_self,
            eraseA_insertA, herr, hpu, hpd2]

/-- Witness for `del_active_removes_when_no_delete_flag`: `lb1` ACTIVE with
no trigger flags, deleted at time 5 and deleted again at time 6. -/
theorem del_active_removes_when_no_delete_flag_witness :
    del_load_balancer (sampleStore "ACTIVE") "lb1" 5 =
      .ok ((Resp.empty, 202), purgedSample) ∧
    del_load_balancer purgedSample "lb1" 6 =
      .ok ((Resp.notFound "loadbalancer", 404), purgedSample) :=
  ⟨(del_active_removes_when_no_delete_flag (sampleStore "ACTIVE") "lb1"
      (sampleLB "ACTIVE" 0) sampleMeta 5 6 (by decide) (by decide) (by decide)
      (Or.inl (by decide)) (by decide)).1,
   (del_active_removes_when_no_delete_flag (sampleStore "ACTIVE") "lb1"
      (sampleLB "ACTIVE" 0) sampleMeta 5 6 (by decide) (by decide) (by decide)
      (Or.inl (by decide)) (by decide)).2.2⟩

/-- C6: advancing an ACTIVE resource with triggers enabled evaluates the
flags in source order pending-update, pending-delete, error, each overwriting
the previous assignment, so the new status is the last matching flag in that
order; in particular update+delete together yield PENDING-DELETE and the
error flag yields ERROR regardless of the other two. -/
theorem active_trigger_precedence (store : Store) (lb_id : String)
    (lb : LB) (m : Meta) (cur : Int)
    (hlb : lookupA store.lbs lb_id = some lb)
    (hm : lookupA store.meta lb_id = some m)
    (hst : lb.status = "ACTIVE") :
    verify_and_update_lb_state store lb_id true cur =
      .ok { store with
            lbs := insertA store.lbs lb_id
              { lb with
                status :=
                  (if m.lb_error_state then "ERROR"
                   else if m.lb_pending_delete.isSome then "PENDING-DELETE"
                   else if m.lb_pending_update.isSome then "PENDING-UPDATE"
                   else "ACTIVE"),
                updatedTime := cur } } ∧
    (m.lb_pending_update.isSome = true → m.lb_pending_delete.isSome = true →
      m.lb_error_state = false →
      verify_and_update_lb_state store lb_id true cur =
        .ok { store with
              lbs := insertA store.lbs lb_id
                { lb with status := "PENDING-DELETE", updatedTime := cur } }) ∧
    (m.lb_error_state = true →
      verify_and_update_lb_state store lb_id true cur =
        .ok { store with
              lbs := insertA store.lbs lb_id
                { lb with status := "ERROR", updatedTime := cur } }) := by
  have hv := (verify_eq_body store lb_id true cur lb hlb).trans
    (body_active_true store lb_id cur lb m hm hst)
  refine ⟨hv, fun h1 h2 h3 => ?_, fun h3 => ?_⟩
  · rw [hv]; simp [h1, h2, h3]
  · rw [hv]; simp [h3]

/-- Metadata with both `lb_pending_update` and `lb_pending_delete` set. -/
def bothFlagsMeta : Meta :=
  { lb_building := none, lb_pending_update := some 10,
    lb_pending_delete := some 10, lb_error_state := false }

/-- A store with `lb1` ACTIVE and both pending flags set. -/
def sampleBothStore : Store :=
  { lbs := [("lb1", sampleLB "ACTIVE" 0)], meta := [("lb1", bothFlagsMeta)] }

/-- Witness for `active_trigger_precedence`: with both pending flags set, one
triggered advance at time 7 moves `lb1` from ACTIVE to PENDING-DELETE. -/
theorem active_trigger_precedence_witness :
    verify_and_update_lb_state sampleBothStore "lb1" true 7 =
      .ok { lbs := [("lb1", { status := "PENDING-DELETE", updatedTime := 7,
                              nodes := none })],
            meta := [("lb1", bothFlagsMeta)] } :=
  (active_trigger_precedence sampleBothStore "lb1" (sampleLB "ACTIVE" 0)
    bothFlagsMeta 7 (by decide) (by decide) (by decide)).2.1 rfl rfl rfl

/-- C7: for a BUILD resource with dwell `d = lb_building or 10`, advance at
time `cur` yields ACTIVE exactly when the elapsed time since `updated_time`
is at least `d` (the boundary at exact equality transitions) and leaves BUILD
when it is strictly less; the dwell resolved to its default is also written
back to the metadata entry. -/
theorem build_dwell_boundary (store : Store) (lb_id : String) (lb : LB)
    (m : Meta) (set_state : Bool) (cur : Int)
    (hlb : lookupA store.lbs lb_id = some lb)
    (hm : lookupA store.meta lb_id = some m)
    (hst : lb.status = "BUILD") :
    verify_and_update_lb_state store lb_id set_state cur =
      .ok { lbs := insertA store.lbs lb_id
              { lb with status :=
                  (if orDefault10 m.lb_building ≤ cur - lb.updatedTime
                   then "ACTIVE" else "BUILD") },
            meta := insertA store.meta lb_id
              { m with lb_building := some (orDefault10 m.lb_building) } } ∧
    (orDefault10 m.lb_building ≤ cur - lb.updatedTime →
      ∀ s', verify_and_update_lb_state store lb_id set_state cur = .ok s' →
        lookupA s'.lbs lb_id = some { lb with status := "ACTIVE" }) ∧
    (cur - lb.updatedTime < orDefault10 m.lb_building →
      ∀ s', verify_and_update_lb_state store lb_id set_state cur = .ok s' →
        lookupA s'.lbs lb_id = some { lb with status := "BUILD" }) := by
  have hv := (verify_eq_body store lb_id set_state cur lb hlb).trans
    (body_build store lb_id set_state cur lb m hm hst)
  refine ⟨hv, fun hle s' hs' => ?_, fun hlt s' hs' => ?_⟩
  · rw [hv] at hs'
    cases hs'
    simp [lookupA_insertA_self, if_pos hle]
  · rw [hv] at hs'
    cases hs'
    simp [lookupA_insertA_self, if_neg (not_le.mpr hlt)]

/-- Witness for `build_dwell_boundary`: `lb1` BUILD since time 0 with the
default dwell 10 is still BUILD when advanced at time 5 and is ACTIVE when
advanced at time 10 (exact equality transitions). -/
theorem build_dwell_boundary_witness :
    verify_and_update_lb_state (sampleStore "BUILD") "lb1" false 5 =
      .ok { lbs := [("lb1", sampleLB "BUILD" 0)],
            meta := [("lb1", { sampleMeta with lb_building := some 10 })] } ∧
    verify_and_update_lb_state (sampleStore "BUILD") "lb1" false 10 =
      .ok { lbs := [("lb1", { sampleLB "BUILD" 0 with status := "ACTIVE" })],
            meta := [("lb1", { sampleMeta with lb_building := some 10 })] } :=
  ⟨(build_dwell_boundary (sampleStore "BUILD") "lb1" (sampleLB "BUILD" 0)
      sampleMeta false 5 (by decide) (by decide) (by decide)).1,
   (build_dwell_boundary (sampleStore "BUILD") "lb1" (sampleLB "BUILD" 0)
      sampleMeta false 10 (by decide) (by decide) (by decide)).1⟩

/-- C8 counterexample: a read-path advance (`set_state = False`) of `lb1`
ACTIVE since time 0 at time 50 leaves the store — in particular
`updated_time` — completely unchanged, so `updated_time` does not drift
forward on mere reads as the claim states. -/
theorem read_path_no_refresh_cex :
    verify_and_update_lb_state (sampleStore "ACTIVE") "lb1" false 50 =
      .ok (sampleStore "ACTIVE") ∧
    lookupA (sampleStore "ACTIVE").lbs "lb1" = some (sampleLB "ACTIVE" 0) ∧
    (sampleLB "ACTIVE" 0).updatedTime ≠ (50 : Int) := by
  refine ⟨rfl, rfl, by decide⟩

/-- C8 (amended): an advance with triggers enabled (the delete path) on an
ACTIVE resource refreshes `updated_time` to the current time even when no
trigger flag fires, but an advance with triggers disabled (every read path)
leaves an ACTIVE resource — and so its `updated_time` — unchanged: the
refresh quirk is confined to the delete path. -/
theorem active_refresh_only_on_delete_path (store : Store) (lb_id : String)
    (lb : LB) (m : Meta) (cur : Int)
    (hlb : lookupA store.lbs lb_id = some lb)
    (hm : lookupA store.meta lb_id = some m)
    (hst : lb.status = "ACTIVE")
    (hpu : m.lb_pending_update = none) (hpd : m.lb_pending_delete = none)
    (herr : m.lb_error_state = false) :
    verify_and_update_lb_state store lb_id true cur =
      .ok { store with
            lbs := insertA store.lbs lb_id
              { lb with status := "ACTIVE", updatedTime := cur } } ∧
    verify_and_update_lb_state store lb_id false cur = .ok store := by
  constructor
  · have hv := (verify_eq_body store lb_id true cur lb hlb).trans
      (body_active_true store lb_id cur lb m hm hst)
    rw [hv]
    simp [hpu, hpd, herr]
  · exact (verify_eq_body store lb_id false cur lb hlb).trans
      (body_active_false store lb_id cur lb hst)

/-- Witness for `active_refresh_only_on_delete_path`: `lb1` ACTIVE since time
0 with no trigger flags, advanced at time 50 on each path. -/
theorem active_refresh_only_on_delete_path_witness :
    verify_and_update_lb_state (sampleStore "ACTIVE") "lb1" true 50 =
      .ok { lbs := [("lb1", { status := "ACTIVE", updatedTime := 50,
                              nodes := none })],
            meta := [("lb1", sampleMeta)] } ∧
    verify_and_update_lb_state (sampleStore "ACTIVE") "lb1" false 50 =
      .ok (sampleStore "ACTIVE") :=
  active_refresh_only_on_delete_path (sampleStore "ACTIVE") "lb1"
    (sampleLB "ACTIVE" 0) sampleMeta 50 (by decide) (by decide) (by decide)
    rfl rfl rfl

/-- C9: `list_nodes` returns 404 when the id is absent; otherwise it runs the
engine with triggers disabled and returns 404 when that advance removed the
record, 410 when the post-advance status is DELETED, and the node collection
(empty when absent) with 200 otherwise. -/
theorem list_nodes_cases (store : Store) (lb_id : String) (cur : Int) :
    (lookupA store.lbs lb_id = none →
      list_nodes store lb_id cur =
        .ok ((Resp.notFound "loadbalancer", 404), store)) ∧
    (∀ lb s1, lookupA store.lbs lb_id = some lb →
      verify_and_update_lb_state store lb_id false cur = .ok s1 →
      ((lookupA s1.lbs lb_id = none →
          list_nodes store lb_id cur =
            .ok ((Resp.notFound "loadbalancer", 404), s1)) ∧
       (∀ lb1, lookupA s1.lbs lb_id = some lb1 →
        ((lb1.status = "DELETED" →
            list_nodes store lb_id cur =
              .ok ((Resp.invalid "The loadbalancer is marked as deleted." 410,
                    410), s1)) ∧
         (lb1.status ≠ "DELETED" →
            list_nodes store lb_id cur =
              .ok ((Resp.nodeList (lb1.nodes.getD []), 200), s1)))))) := by
  refine ⟨fun h => ?_,
          fun lb s1 hlb hv =>
            ⟨fun h1 => ?_, fun lb1 h1 => ⟨fun hd => ?_, fun hd => ?_⟩⟩⟩
  · simp [list_nodes, h]
  · simp [list_nodes, hlb, hv, h1]
  · simp [list_nodes, hlb, hv, h1, hd]
  · simp [list_nodes, hlb, hv, h1, hd]

/-- Witness for `list_nodes_cases`: listing nodes of `lb1` ACTIVE with no
`nodes` key at time 3 returns the empty node list with 200. -/
theorem list_nodes_cases_witness :
    list_nodes (sampleStore "ACTIVE") "lb1" 3 =
      .ok ((Resp.nodeList [], 200), sampleStore "ACTIVE") :=
  (((list_nodes_cases (sampleStore "ACTIVE") "lb1" 3).2
      (sampleLB "ACTIVE" 0) (sampleStore "ACTIVE") (by decide) rfl).2
    (sampleLB "ACTIVE" 0) (by decide)).2 (by decide)

/-- C10: the `set_state` (external-triggers) flag is consulted only in the
ACTIVE branch of the engine: for a resource in BUILD, PENDING-UPDATE,
PENDING-DELETE, DELETED or ERROR status, an advance with triggers enabled and
one with triggers disabled produce identical results — so dwell transitions
and the grace-period purge fire on read-path calls too. -/
theorem set_state_only_affects_active (store : Store) (lb_id : String)
    (lb : LB) (cur : Int)
    (hlb : lookupA store.lbs lb_id = some lb)
    (hst : lb.status = "BUILD" ∨ lb.status = "PENDING-UPDATE" ∨
           lb.status = "PENDING-DELETE" ∨ lb.status = "DELETED" ∨
           lb.status = "ERROR") :
    verify_and_update_lb_state store lb_id true cur =
      verify_and_update_lb_state store lb_id false cur := by
  rw [verify_eq_body store lb_id true cur lb hlb,
      verify_eq_body store lb_id false cur lb hlb]
  rcases hst with h | h | h | h | h <;> simp [verifyBody, h]

/-- Witness for `set_state_only_affects_active`: on `lb1` in BUILD status the
two advance modes agree at time 5. -/
theorem set_state_only_affects_active_witness :
    verify_and_update_lb_state (sampleStore "BUILD") "lb1" true 5 =
      verify_and_update_lb_state (sampleStore "BUILD") "lb1" false 5 :=
  set_state_only_affects_active (sampleStore "BUILD") "lb1"
    (sampleLB "BUILD" 0) 5 (by decide) (by decide)
